import Mathlib

/-!
Verification development for the spektra-vision asynchronous job
orchestration and live-telemetry subsystem.

The definitions below are a shallow embedding of the Python source:

* `src/backend/app/models/enums.py` / `models/job.py` — the Job record;
* `src/backend/app/api/routes/jobs.py` — the Job Submitter
  (`create_job`, `auto_annotate`, `cancel_job`, `get_job_progress`,
  `get_job_logs`);
* `src/worker/tasks/train.py` and `src/worker/tasks/predict.py` —
  the Job Executor (`_update_job`, `_flush_logs_to_db`, the YOLO
  progress callbacks, the failure handlers, finalization);
* `src/worker/utils/redis_log.py` — the Telemetry Channel
  (`publish_log`, `sync_publish_log`).

Database rows are modelled as Lean structures, the per-job Redis state
(pub/sub stream, `job_log_history:<id>` list, `job_progress:<id>` slot)
as an explicit `Chan` state, and Redis pipelines as explicit command
lists.  JSON serialization of the structured progress payload is
modelled as the identity embedding of the structured record (the source
round-trips the same field set through `json.dumps`/`json.loads`).
-/

namespace Spektra

/-- Decidable equality for `Except`, used to evaluate route outcomes on
concrete inputs. -/
instance {ε α : Type} [DecidableEq ε] [DecidableEq α] : DecidableEq (Except ε α) := fun a b =>
  match a, b with
  | .error e, .error f =>
    if h : e = f then isTrue (by rw [h]) else isFalse (fun hh => h (Except.error.inj hh))
  | .ok x, .ok y =>
    if h : x = y then isTrue (by rw [h]) else isFalse (fun hh => h (Except.ok.inj hh))
  | .error _, .ok _ => isFalse (fun hh => Except.noConfusion hh)
  | .ok _, .error _ => isFalse (fun hh => Except.noConfusion hh)

/-- `JobStatus` from `src/backend/app/models/enums.py`. -/
inductive JobStatus where
  | PENDING
  | RUNNING
  | COMPLETED
  | FAILED
  | CANCELLED
deriving DecidableEq, Repr

/-- `status.value.lower()` as used by `get_job_progress`. -/
def JobStatus.lower : JobStatus → String
  | .PENDING => "pending"
  | .RUNNING => "running"
  | .COMPLETED => "completed"
  | .FAILED => "failed"
  | .CANCELLED => "cancelled"

/-- Terminal statuses (spec glossary: COMPLETED, FAILED, CANCELLED). -/
def JobStatus.isTerminal : JobStatus → Bool
  | .COMPLETED => true
  | .FAILED => true
  | .CANCELLED => true
  | _ => false

/-- A durable/ephemeral log entry: `{"ts": ..., "line": ...}` as produced
by `publish_log` in `src/worker/utils/redis_log.py`. -/
structure LogEntry where
  ts : String
  line : String
deriving DecidableEq, Repr

/-- Structured progress payload: the field set published by the worker
callbacks and parsed back by `JobProgress` in
`src/backend/app/schemas/jobs.py` (with the pydantic defaults). -/
structure Progress where
  epoch : Nat := 0
  total_epochs : Nat := 0
  batch : Nat := 0
  total_batches : Nat := 0
  pct : ℚ := 0
  elapsed_secs : ℚ := 0
  eta_secs : ℚ := 0
  phase : String := "pending"
deriving DecidableEq, Repr

/-- The `jobs` table row, from `src/backend/app/models/job.py`.
`hyperparams` is modelled as an association list of numeric entries
(the source accesses it only through `.get(key, default)`). -/
structure Job where
  id : String
  project_id : String
  job_type : String
  status : JobStatus
  logs_channel : String
  model_arch : Option String := none
  hyperparams : List (String × Nat) := []
  artifact_path : Option String := none
  created_at : Nat := 0
  dataset_version_id : Option String := none
  metrics : List (String × ℚ) := []
  checkpoint : Option String := none
  celery_task_id : Option String := none
  logs : List LogEntry := []
deriving DecidableEq, Repr

/-- `dict.get(key, default)` on the hyperparams bag. -/
def hpGetD (hp : List (String × Nat)) (k : String) (d : Nat) : Nat :=
  match hp.lookup k with
  | some v => v
  | none => d

/-- `_update_job` from `src/worker/tasks/train.py` (lines 42–57):
`UPDATE jobs SET status = :status [, artifact_path = :artifact_path]
[, metrics = :metrics] WHERE id = :job_id`.  The status write is
unconditional; artifact and metrics are included only when the
optional argument is not `None`. -/
def update_job (j : Job) (status : JobStatus)
    (artifact : Option String := none)
    (metrics : Option (List (String × ℚ)) := none) : Job :=
  { j with
    status := status
    artifact_path := match artifact with
      | some a => some a
      | none => j.artifact_path
    metrics := match metrics with
      | some m => m
      | none => j.metrics }

/-- `_update_job` from `src/worker/tasks/predict.py` (lines 20–28):
`UPDATE jobs SET status = :status WHERE id = :job_id`. -/
def predict_update_job (j : Job) (status : JobStatus) : Job :=
  { j with status := status }

/-! ### Telemetry Channel (`src/worker/utils/redis_log.py`) -/

/-- A message carried on the pub/sub channel: either a raw log line or
the JSON progress payload `{"type": "progress", **progress}` (the JSON
round trip is modelled as the structured record itself). -/
inductive Msg where
  | line (s : String)
  | prog (p : Progress)
deriving DecidableEq, Repr

/-- One Redis command inside a pipeline. -/
inductive RedisCmd where
  | publish (channel : String) (m : Msg)
  | rpush (key : String) (e : LogEntry)
  | expire (key : String) (secs : Nat)
  | setProg (key : String) (p : Progress)
deriving DecidableEq, Repr

/-- Python `s.startswith(p)`, modelled on the character list (unlike
`String.startsWith`, this reduces in the kernel). -/
def pyStartsWith (s p : String) : Bool := p.data.isPrefixOf s.data

/-- Python `s[n:]` — drop the first `n` characters. -/
def pyDrop (s : String) (n : Nat) : String := String.mk (s.data.drop n)

/-- `publish_log` (async variant, `redis_log.py` lines 30–71), rendered
as the single pipeline of commands it executes in one round trip:
publish the raw line; if the channel is `job_logs:<job_id>` with a
non-empty id, `rpush` a timestamped entry onto `job_log_history:<job_id>`
and set its 7-day expiry; if a progress payload is supplied, publish it
on the same channel and, again for `job_logs:` channels, `set` the
`job_progress:<job_id>` slot with a 24-hour expiry.  The wall-clock
timestamp is passed explicitly. -/
def publish_log (ts : String) (channel message : String)
    (progress : Option Progress := none) : List RedisCmd :=
  let cmds := [RedisCmd.publish channel (Msg.line message)]
  let entry : LogEntry := { ts := ts, line := message }
  let cmds := cmds ++
    (if pyStartsWith channel "job_logs:" then
      let job_id := pyDrop channel ("job_logs:".length)
      if job_id ≠ "" then
        [RedisCmd.rpush ("job_log_history:" ++ job_id) entry,
         RedisCmd.expire ("job_log_history:" ++ job_id) (7 * 24 * 3600)]
      else []
    else [])
  match progress with
  | none => cmds
  | some p =>
    cmds ++ [RedisCmd.publish channel (Msg.prog p)] ++
      (if pyStartsWith channel "job_logs:" then
        let job_id := pyDrop channel ("job_logs:".length)
        if job_id ≠ "" then
          [RedisCmd.setProg ("job_progress:" ++ job_id) p,
           RedisCmd.expire ("job_progress:" ++ job_id) (24 * 3600)]
        else []
      else [])

/-- `sync_publish_log` (blocking variant, `redis_log.py` lines 100–128):
the pipeline issued by the synchronous Redis client. -/
def sync_publish_log (ts : String) (channel message : String)
    (progress : Option Progress := none) : List RedisCmd :=
  let pipe := [RedisCmd.publish channel (Msg.line message)]
  let entry : LogEntry := { ts := ts, line := message }
  let pipe := pipe ++
    (if pyStartsWith channel "job_logs:" then
      let job_id := pyDrop channel ("job_logs:".length)
      if job_id ≠ "" then
        [RedisCmd.rpush ("job_log_history:" ++ job_id) entry,
         RedisCmd.expire ("job_log_history:" ++ job_id) (7 * 24 * 3600)]
      else []
    else [])
  match progress with
  | none => pipe
  | some p =>
    pipe ++ [RedisCmd.publish channel (Msg.prog p)] ++
      (if pyStartsWith channel "job_logs:" then
        let job_id := pyDrop channel ("job_logs:".length)
        if job_id ≠ "" then
          [RedisCmd.setProg ("job_progress:" ++ job_id) p,
           RedisCmd.expire ("job_progress:" ++ job_id) (24 * 3600)]
        else []
      else [])

/-- `publish_progress` (async variant, `redis_log.py` lines 74–93):
progress-only publish, no log-buffer append. -/
def publish_progress (channel : String) (p : Progress) : List RedisCmd :=
  [RedisCmd.publish channel (Msg.prog p)] ++
    (if pyStartsWith channel "job_logs:" then
      let job_id := pyDrop channel ("job_logs:".length)
      if job_id ≠ "" then
        [RedisCmd.setProg ("job_progress:" ++ job_id) p,
         RedisCmd.expire ("job_progress:" ++ job_id) (24 * 3600)]
      else []
    else [])

/-- Per-job Redis state: the live pub/sub stream observed by a
subscriber of `job_logs:<id>`, the `job_log_history:<id>` list and the
`job_progress:<id>` single slot. -/
structure Chan where
  pubsub : List Msg := []
  buffer : List LogEntry := []
  cache : Option Progress := none
deriving DecidableEq, Repr

/-- Interpret one Redis command on the state of the job `jid`. -/
def applyCmd (jid : String) (c : Chan) : RedisCmd → Chan
  | .publish ch m =>
    if ch = "job_logs:" ++ jid then { c with pubsub := c.pubsub ++ [m] } else c
  | .rpush k e =>
    if k = "job_log_history:" ++ jid then { c with buffer := c.buffer ++ [e] } else c
  | .expire _ _ => c
  | .setProg k p =>
    if k = "job_progress:" ++ jid then { c with cache := some p } else c

/-- Run a whole pipeline on the state of job `jid`. -/
def applyCmds (jid : String) (c : Chan) (cmds : List RedisCmd) : Chan :=
  cmds.foldl (applyCmd jid) c

/-- `_flush_logs_to_db` (`train.py` lines 60–79, `predict.py` lines
31–49): read the whole `job_log_history:<id>` list, write it into the
`jobs.logs` column, then delete the list. -/
def flush_logs_to_db (j : Job) (c : Chan) : Job × Chan :=
  ({ j with logs := c.buffer }, { c with buffer := [] })

/-! ### Job Submitter (`src/backend/app/api/routes/jobs.py`) -/

/-- Submitter-side external effect: a Celery `revoke` on a task handle,
or a bare `redis.publish` (no history append, no cache write). -/
inductive Effect where
  | revoke (task_id : String)
  | pub (channel : String) (m : Msg)
deriving DecidableEq, Repr

/-- `cancel_job` (`jobs.py` lines 294–320), for an existing job.
Status not in {PENDING, RUNNING} raises HTTP 400 before any mutation.
Otherwise: revoke the Celery task when `celery_task_id` is set, publish
the line `"Job cancelled by user"` on the logs channel with a bare
`redis.publish`, and set status CANCELLED. -/
def cancel_job (j : Job) : Except Nat (Job × List Effect) :=
  if j.status ≠ JobStatus.PENDING ∧ j.status ≠ JobStatus.RUNNING then
    .error 400
  else
    let revokes := match j.celery_task_id with
      | some t => [Effect.revoke t]
      | none => []
    let effs := revokes ++ [Effect.pub j.logs_channel (Msg.line "Job cancelled by user")]
    .ok ({ j with status := JobStatus.CANCELLED }, effs)

/-- Database/job state observed after a `cancel_job` call: an HTTP
error leaves the row untouched. -/
def cancelPost (j : Job) : Job :=
  match cancel_job j with
  | .error _ => j
  | .ok (j2, _) => j2

/-- Interpret one Submitter effect on the per-job Redis state: the bare
`redis.publish` reaches only the pub/sub stream. -/
def applyEffect (jid : String) (c : Chan) : Effect → Chan
  | .revoke _ => c
  | .pub ch m =>
    if ch = "job_logs:" ++ jid then { c with pubsub := c.pubsub ++ [m] } else c

/-- Job row and Redis state after a `cancel_job` call. -/
def applyCancel (j : Job) (c : Chan) : Job × Chan :=
  match cancel_job j with
  | .error _ => (j, c)
  | .ok (j2, effs) => (j2, effs.foldl (applyEffect j.id) c)

/-- `get_job_progress` (`jobs.py` lines 341–374), for an existing job.
`cache` is the current value of the `job_progress:<id>` slot. -/
def get_job_progress (j : Job) (cache : Option Progress) : Progress :=
  if j.status = JobStatus.COMPLETED then
    { epoch := hpGetD j.hyperparams "epochs" 0
      total_epochs := hpGetD j.hyperparams "epochs" 0
      pct := 100
      phase := "completed" }
  else if j.status ≠ JobStatus.RUNNING ∧ j.status ≠ JobStatus.PENDING then
    { phase := j.status.lower }
  else
    match cache with
    | some p => p
    | none =>
      { phase := if j.status = JobStatus.PENDING then "pending" else "preparing" }

/-- `get_job_logs` (`jobs.py` lines 377–402), for an existing job: the
persisted `jobs.logs` column when non-empty, else the live
`job_log_history:<id>` list. -/
def get_job_logs (j : Job) (c : Chan) : List LogEntry :=
  if j.logs ≠ [] then j.logs else c.buffer

/-! ### Job creation (`create_job`, `auto_annotate`) -/

/-- Keys of `MODEL_ARCHITECTURES` from `src/backend/app/schemas/jobs.py`. -/
def MODEL_ARCHITECTURES : List String :=
  ["yolo11n.pt", "yolo11s.pt", "yolo11m.pt", "yolo11l.pt", "yolo11x.pt",
   "yolov8n.pt", "yolov8s.pt", "yolov8m.pt"]

/-- `JobCreate` payload from `src/backend/app/schemas/jobs.py` with its
pydantic defaults. -/
structure JobCreate where
  project_id : String
  job_type : String := "train"
  model_arch : String := "yolo11n.pt"
  hyperparams : List (String × Nat) := [("epochs", 20), ("batch", 8), ("imgsz", 640)]
  model_path : Option String := none
  checkpoint : Option String := some "coco"
  dataset_version_id : Option String := none
deriving DecidableEq, Repr

/-- A task sent to the broker by `celery.send_task`. -/
inductive TaskMsg where
  | train (job_id logs_channel project_id model_arch : String)
      (epochs batch imgsz : Nat) (checkpoint : String)
      (dataset_version_id : Option String)
  | predict (job_id logs_channel project_id model_path : String)
      (limit : Nat) (image_ids : List String)
deriving DecidableEq, Repr

/-- Observable outcome of a submission route: the committed database
rows, the HTTP result, and the tasks placed on the broker. -/
structure Outcome where
  db : List Job
  result : Except Nat Job
  tasks : List TaskMsg
deriving DecidableEq, Repr

/-- `order_by(created_at.desc()).limit(1)` + `scalar_one_or_none()`:
the row with the greatest `created_at` among the filtered rows. -/
def pickLatest (l : List Job) : Option Job :=
  l.foldl
    (fun acc j =>
      match acc with
      | none => some j
      | some k => if k.created_at < j.created_at then some j else some k)
    none

/-- Replace the row with the same id (the ORM mutates the row in place
and commits). -/
def dbUpdate (db : List Job) (j : Job) : List Job :=
  db.map (fun k => if k.id = j.id then j else k)

/-- The checkpoint-based architecture resolution at the top of
`create_job` (`jobs.py` lines 63–75): when a train job continues from a
prior artifact (`checkpoint` starting with `models/`), inherit that
job's `model_arch` when it is set (Python truthiness: `None` and `""`
both fall through). -/
def resolve_model_arch (db : List Job) (payload : JobCreate) : String :=
  if payload.job_type = "train" then
    match payload.checkpoint with
    | some ckpt =>
      if ckpt.startsWith "models/" then
        match pickLatest (db.filter
            (fun k => k.job_type = "train" ∧ k.artifact_path = some ckpt)) with
        | some prev =>
          match prev.model_arch with
          | some a => if a ≠ "" then a else payload.model_arch
          | none => payload.model_arch
        | none => payload.model_arch
      else payload.model_arch
    | none => payload.model_arch
  else payload.model_arch

/-- `payload.checkpoint or "coco"` (Python truthiness). -/
def checkpointOrCoco (c : Option String) : String :=
  match c with
  | some s => if s ≠ "" then s else "coco"
  | none => "coco"

/-- Phase one of `create_job` (`jobs.py` lines 82–94): the first
committed row.  Note the provisional logs channel is
`job_logs:<project_id>`. -/
def create_job_phase1 (payload : JobCreate) (resolved_arch : String)
    (newId : String) (now : Nat) : Job :=
  { id := newId
    project_id := payload.project_id
    job_type := payload.job_type
    status := JobStatus.PENDING
    logs_channel := "job_logs:" ++ payload.project_id
    model_arch := some resolved_arch
    hyperparams := payload.hyperparams
    checkpoint := payload.checkpoint
    dataset_version_id := payload.dataset_version_id
    created_at := now }

/-- The channel patch of the second phase (`jobs.py` line 97):
`job.logs_channel = f"job_logs:{job.id}"`. -/
def patch_logs_channel (j : Job) : Job :=
  { j with logs_channel := "job_logs:" ++ j.id }

/-- `create_job` (`jobs.py` lines 58–138).  `newId` is the generated
job id, `now` the row's creation time, `taskId` the id Celery returns
at enqueue.  For a predict payload without `model_path` the HTTP 400 is
raised only after both phase-one and the channel patch were committed. -/
def create_job (db : List Job) (payload : JobCreate)
    (newId : String) (now : Nat) (taskId : String) : Outcome :=
  let resolved := resolve_model_arch db payload
  if payload.job_type = "train" ∧ resolved ∉ MODEL_ARCHITECTURES then
    { db := db, result := .error 400, tasks := [] }
  else
    let j1 := create_job_phase1 payload resolved newId now
    let db1 := db ++ [j1]
    let j2 := patch_logs_channel j1
    let db2 := dbUpdate db1 j2
    if payload.job_type = "train" then
      let t := TaskMsg.train newId j2.logs_channel payload.project_id resolved
        (hpGetD payload.hyperparams "epochs" 20)
        (hpGetD payload.hyperparams "batch" 8)
        (hpGetD payload.hyperparams "imgsz" 640)
        (checkpointOrCoco payload.checkpoint)
        payload.dataset_version_id
      let j3 := { j2 with celery_task_id := some taskId }
      { db := dbUpdate db2 j3, result := .ok j3, tasks := [t] }
    else if payload.job_type = "predict" then
      match payload.model_path with
      | none => { db := db2, result := .error 400, tasks := [] }
      | some mp =>
        let t := TaskMsg.predict newId j2.logs_channel payload.project_id mp
          (hpGetD payload.hyperparams "limit" 50) []
        let j3 := { j2 with celery_task_id := some taskId }
        { db := dbUpdate db2 j3, result := .ok j3, tasks := [t] }
    else
      { db := db2, result := .ok j2, tasks := [] }

/-- The `"latest"` query of `auto_annotate` (`jobs.py` lines 158–167):
most recent COMPLETED train job of the project whose `artifact_path` is
not NULL. -/
def latest_completed_train (db : List Job) (pid : String) : Option Job :=
  pickLatest (db.filter
    (fun k => k.project_id = pid ∧ k.job_type = "train" ∧
      k.status = JobStatus.COMPLETED ∧ k.artifact_path ≠ none))

/-- Phase one of `auto_annotate` (`jobs.py` lines 175–185): the first
committed row, with an empty provisional logs channel. -/
def auto_annotate_phase1 (project_id : String) (limit : Nat)
    (newId : String) (now : Nat) : Job :=
  { id := newId
    project_id := project_id
    job_type := "predict"
    status := JobStatus.PENDING
    logs_channel := ""
    model_arch := none
    hyperparams := [("limit", limit), ("auto_annotate", 1)]
    created_at := now }

/-- `auto_annotate` (`jobs.py` lines 141–205).  `model_path = "latest"`
resolves through `latest_completed_train`, with the Python truthiness
re-check `if latest_job is None or not latest_job.artifact_path`
rejecting an empty-string artifact as well; the HTTP 400 is raised
before any row is created. -/
def auto_annotate (db : List Job) (project_id model_path : String)
    (limit : Nat) (newId : String) (now : Nat) (taskId : String) : Outcome :=
  let resolved : Except Nat String :=
    if model_path = "latest" then
      match latest_completed_train db project_id with
      | none => .error 400
      | some lj =>
        match lj.artifact_path with
        | none => .error 400
        | some a => if a = "" then .error 400 else .ok a
    else .ok model_path
  match resolved with
  | .error e => { db := db, result := .error e, tasks := [] }
  | .ok rp =>
    let j1 := auto_annotate_phase1 project_id limit newId now
    let db1 := db ++ [j1]
    let j2 := patch_logs_channel j1
    let db2 := dbUpdate db1 j2
    let t := TaskMsg.predict newId j2.logs_channel project_id rp limit []
    let j3 := { j2 with celery_task_id := some taskId }
    { db := dbUpdate db2 j3, result := .ok j3, tasks := [t] }

/-! ### Job Executor (`src/worker/tasks/train.py`, `predict.py`) -/

/-- Python's `round(x, 1)`, modelled with Mathlib's `round` (half away
from zero at ties, where CPython rounds half to even; the claims proved
below — bounds and monotonicity — are insensitive to the tie rule). -/
def round1 (x : ℚ) : ℚ := (round (10 * x) : ℤ) / 10

/-- The progress percentage of `on_train_epoch_end` (`train.py` line
165): `round(100 * epoch / total, 1)` with `epoch = trainer.epoch + 1`
(`tEpoch` is the 0-based `trainer.epoch`). -/
def epoch_end_pct (tEpoch total : Nat) : ℚ :=
  round1 (100 * ((tEpoch : ℚ) + 1) / (total : ℚ))

/-- The overall progress percentage of `on_train_batch_end` (`train.py`
lines 184 and 201): `((epoch - 1) + batch_i / max(nb, 1)) /
max(total_epochs, 1) * 100`, rounded to one decimal for the published
`pct` field. -/
def batch_end_pct (tEpoch total batchI nb : Nat) : ℚ :=
  round1 (((tEpoch : ℚ) + (batchI : ℚ) / ((max nb 1 : ℕ) : ℚ)) /
    ((max total 1 : ℕ) : ℚ) * 100)

/-- Outcome of an executor-side failure handler: whether an exception
escaped the handler, and the job/telemetry state it left behind. -/
structure FailOutcome where
  raised : Bool
  job : Job
  chan : Chan
deriving DecidableEq, Repr

/-- The `except Exception` block of `train_model` (`train.py` lines
416–430): publish `ERROR: <traceback>`, write FAILED, flush logs — each
step in its own `try`/`except`, so a failure of any step (modelled as
the step having no effect) is swallowed and the next step still runs. -/
def train_fail_path (channel ts tb : String) (j : Job) (c : Chan)
    (publishOk updateOk flushOk : Bool) : FailOutcome :=
  let c1 := if publishOk then
      applyCmds j.id c (publish_log ts channel ("ERROR: " ++ tb))
    else c
  let j1 := if updateOk then update_job j JobStatus.FAILED else j
  if flushOk then
    let p := flush_logs_to_db j1 c1
    { raised := false, job := p.1, chan := p.2 }
  else
    { raised := false, job := j1, chan := c1 }

/-- The `except Exception` block of `predict_dataset` (`predict.py`
lines 157–161): publish `ERROR: <traceback>`, write FAILED, flush logs
— with no inner guards, so the first failing step re-raises and the
remaining steps are skipped. -/
def predict_fail_path (channel ts tb : String) (j : Job) (c : Chan)
    (publishOk updateOk flushOk : Bool) : FailOutcome :=
  if publishOk = false then
    { raised := true, job := j, chan := c }
  else
    let c1 := applyCmds j.id c (publish_log ts channel ("ERROR: " ++ tb))
    if updateOk = false then
      { raised := true, job := j, chan := c1 }
    else
      let j1 := predict_update_job j JobStatus.FAILED
      if flushOk = false then
        { raised := true, job := j1, chan := c1 }
      else
        let p := flush_logs_to_db j1 c1
        { raised := false, job := p.1, chan := p.2 }

/-- `_upload_model` (`train.py` lines 82–91): collision-free artifact
key `models/<short job id>_<timestamp>_<filename>`. -/
def upload_model_key (job_id : String) (uploadTs : Nat) (filename : String) : String :=
  let short_id := if job_id.length ≥ 8 then job_id.take 8 else job_id
  "models/" ++ short_id ++ "_" ++ toString uploadTs ++ "_" ++ filename

/-- The COMPLETED finalization of `train_model` (`train.py` lines
400–414): the artifact is uploaded only when `best.pt` exists, and
`_update_job` is called with `artifact_path = None` otherwise, which
omits the column from the UPDATE. -/
def train_finalize (j : Job) (bestExists : Bool) (uploadTs : Nat)
    (metrics : List (String × ℚ)) : Job :=
  let artifact : Option String :=
    if bestExists then some (upload_model_key j.id uploadTs "best.pt") else none
  update_job j JobStatus.COMPLETED artifact (some metrics)

/-- `delete_model` (`src/backend/app/api/routes/models.py` lines
99–115): 404 when the job has no artifact, otherwise clear
`artifact_path` (the status is untouched). -/
def delete_model (j : Job) : Except Nat Job :=
  if j.artifact_path = none then .error 404
  else .ok { j with artifact_path := none }

/-! ### Fixtures for concrete witnesses -/

/-- A job already cancelled through the Submitter's cancel path. -/
def sampleCancelled : Job :=
  { id := "j1"
    project_id := "p1"
    job_type := "train"
    status := JobStatus.CANCELLED
    logs_channel := "job_logs:j1" }

/-- A running job with a Celery task handle. -/
def sampleRunning : Job :=
  { id := "j1"
    project_id := "p1"
    job_type := "train"
    status := JobStatus.RUNNING
    logs_channel := "job_logs:j1"
    celery_task_id := some "t1" }

/-- An empty per-job Redis state. -/
def sampleChan : Chan := { pubsub := [], buffer := [], cache := none }

/-- A COMPLETED train job with an uploaded artifact. -/
def sampleCompleted : Job :=
  { id := "j0"
    project_id := "p1"
    job_type := "train"
    status := JobStatus.COMPLETED
    logs_channel := "job_logs:j0"
    artifact_path := some "models/j0_1_best.pt"
    created_at := 5 }

/-! ## Theorems -/

theorem applyCmds_publish_log_self (jid ch ts msg : String) (c : Chan)
    (h1 : pyStartsWith ch "job_logs:" = true)
    (h2 : pyDrop ch ("job_logs:".length) = jid)
    (h3 : jid ≠ "") (h4 : ch = "job_logs:" ++ jid) :
    applyCmds jid c (publish_log ts ch msg none) =
      { c with pubsub := c.pubsub ++ [Msg.line msg],
               buffer := c.buffer ++ [{ ts := ts, line := msg }] } := by
  subst h4
  simp only [publish_log, h1, h2, if_true]
  rw [if_pos h3]
  simp [applyCmds, applyCmd]

theorem cancelPost_error {x : Job} {e : Nat} (h : cancel_job x = .error e) :
    cancelPost x = x := by
  unfold cancelPost; rw [h]

theorem cancelPost_ok {x j2 : Job} {effs : List Effect}
    (h : cancel_job x = .ok (j2, effs)) : cancelPost x = j2 := by
  unfold cancelPost; rw [h]

/-- **C1** (amended): Executor status writes are unconditional
(last-writer-wins): `_update_job` in both tasks always leaves the
written status, whatever the previous value, while the Submitter's
`cancel_job` is the only writer that refuses terminal statuses (HTTP
400, row untouched). -/
theorem C1_status_write_last_writer_wins (j : Job) (s : JobStatus)
    (a : Option String) (m : Option (List (String × ℚ))) :
    (update_job j s a m).status = s ∧
    (predict_update_job j s).status = s ∧
    (j.status.isTerminal = true → cancel_job j = .error 400 ∧ cancelPost j = j) := by
  refine ⟨rfl, rfl, fun h => ?_⟩
  have hc : j.status ≠ JobStatus.PENDING ∧ j.status ≠ JobStatus.RUNNING := by
    cases hs : j.status <;> simp [JobStatus.isTerminal, hs] at h ⊢
  have h400 : cancel_job j = .error 400 := by
    unfold cancel_job; rw [if_pos hc]
  exact ⟨h400, cancelPost_error h400⟩

/-- **C1** witness: the amended statement evaluated on a cancelled job. -/
theorem C1_witness :
    cancel_job sampleCancelled = .error 400 ∧ cancelPost sampleCancelled = sampleCancelled :=
  (C1_status_write_last_writer_wins sampleCancelled JobStatus.COMPLETED none none).2.2 (by decide)

/-- **C1** counterexample: a job whose status is the terminal CANCELLED
(as set by the Submitter's cancel path) is overwritten to COMPLETED
(resp. FAILED) by a subsequent Executor `_update_job` finalization
write, contradicting "no terminal status is ever overwritten". -/
theorem C1_counterexample :
    sampleCancelled.status = JobStatus.CANCELLED ∧
    JobStatus.CANCELLED.isTerminal = true ∧
    (update_job sampleCancelled JobStatus.COMPLETED none none).status = JobStatus.COMPLETED ∧
    (predict_update_job sampleCancelled JobStatus.FAILED).status = JobStatus.FAILED := by
  decide

/-- **C2**: `cancel_job` fails with HTTP 400 and leaves the row
untouched whenever the status is neither PENDING nor RUNNING; on a
PENDING/RUNNING job it sets CANCELLED, so a second cancellation fails
with HTTP 400 with the status unchanged, and when the job carries a
task handle the success path revokes exactly that handle and publishes
the human-readable cancellation line on the job's channel. -/
theorem C2_cancel_job_spec (j : Job) :
    ((j.status ≠ JobStatus.PENDING ∧ j.status ≠ JobStatus.RUNNING) →
      cancel_job j = .error 400 ∧ cancelPost j = j) ∧
    ((j.status = JobStatus.PENDING ∨ j.status = JobStatus.RUNNING) →
      (cancelPost j).status = JobStatus.CANCELLED ∧
      cancel_job (cancelPost j) = .error 400 ∧
      cancelPost (cancelPost j) = cancelPost j ∧
      ∀ t, j.celery_task_id = some t →
        cancel_job j = .ok ({ j with status := JobStatus.CANCELLED },
          [Effect.revoke t,
           Effect.pub j.logs_channel (Msg.line "Job cancelled by user")])) := by
  constructor
  · intro h
    have h400 : cancel_job j = .error 400 := by
      unfold cancel_job; rw [if_pos h]
    exact ⟨h400, cancelPost_error h400⟩
  · intro h
    have hc : ¬(j.status ≠ JobStatus.PENDING ∧ j.status ≠ JobStatus.RUNNING) := by
      rcases h with h | h <;> simp [h]
    have hok : cancel_job j = .ok ({ j with status := JobStatus.CANCELLED },
        (match j.celery_task_id with
          | some t => [Effect.revoke t]
          | none => []) ++
        [Effect.pub j.logs_channel (Msg.line "Job cancelled by user")]) := by
      unfold cancel_job; rw [if_neg hc]
    have hpost : cancelPost j = { j with status := JobStatus.CANCELLED } :=
      cancelPost_ok hok
    have hterm : ({ j with status := JobStatus.CANCELLED } : Job).status ≠ JobStatus.PENDING ∧
        ({ j with status := JobStatus.CANCELLED } : Job).status ≠ JobStatus.RUNNING := by
      exact ⟨by simp, by simp⟩
    have h400 : cancel_job (cancelPost j) = .error 400 := by
      rw [hpost]; unfold cancel_job; rw [if_pos hterm]
    refine ⟨by rw [hpost], h400, cancelPost_error h400, ?_⟩
    intro t ht
    rw [hok]
    simp only [ht]
    rfl

/-- **C2** witness: the specification evaluated on a RUNNING job with a
task handle, then on its cancelled result. -/
theorem C2_witness :
    (cancelPost sampleRunning).status = JobStatus.CANCELLED ∧
    cancel_job (cancelPost sampleRunning) = .error 400 ∧
    cancel_job sampleRunning = .ok ({ sampleRunning with status := JobStatus.CANCELLED },
      [Effect.revoke "t1", Effect.pub "job_logs:j1" (Msg.line "Job cancelled by user")]) := by
  have h := (C2_cancel_job_spec sampleRunning).2 (Or.inr (by decide))
  exact ⟨h.1, h.2.1, h.2.2.2 "t1" (by decide)⟩

/-- **C3** counterexample: on an empty database (so no COMPLETED train
job with an artifact exists), `create_job` with a predict payload and
`model_path = "latest"` succeeds, creates a Job row and forwards the
unresolved string `"latest"` to the worker — no client error and a Job
is created; and the predict payload with a missing `model_path` does
get the client error, but only after a Job row was created. -/
theorem C3_counterexample :
    (create_job [] { project_id := "p1", job_type := "predict", model_path := some "latest" }
        "j1" 0 "t1").result.isOk = true ∧
    (create_job [] { project_id := "p1", job_type := "predict", model_path := some "latest" }
        "j1" 0 "t1").db.length = 1 ∧
    (create_job [] { project_id := "p1", job_type := "predict", model_path := some "latest" }
        "j1" 0 "t1").tasks = [TaskMsg.predict "j1" "job_logs:j1" "p1" "latest" 50 []] ∧
    (create_job [] { project_id := "p1", job_type := "predict", model_path := none }
        "j1" 0 "t1").result = .error 400 ∧
    (create_job [] { project_id := "p1", job_type := "predict", model_path := none }
        "j1" 0 "t1").db.length = 1 := by
  decide

/-- **C3** (amended): the `auto_annotate` route rejects
`model_path = "latest"` with HTTP 400 and an untouched database, with
no broker task, whenever no COMPLETED train job with a non-null
artifact exists for the project (indeed every `auto_annotate` error is
raised before a Job is created), and `create_job`'s train-side
`model_arch` validation equally precedes Job creation; the predict
branch of `create_job`, by contrast, is the subject of the
counterexample. -/
theorem C3_validation_before_creation (db : List Job) (pid mp : String)
    (lim : Nat) (newId : String) (now : Nat) (tid : String) :
    ((auto_annotate db pid mp lim newId now tid).result.isOk = false →
      auto_annotate db pid mp lim newId now tid = ⟨db, .error 400, []⟩) ∧
    (latest_completed_train db pid = none →
      auto_annotate db pid "latest" lim newId now tid = ⟨db, .error 400, []⟩) ∧
    (∀ payload : JobCreate, payload.job_type = "train" →
      (create_job db payload newId now tid).result.isOk = false →
      create_job db payload newId now tid = ⟨db, .error 400, []⟩) := by
  refine ⟨?_, ?_, ?_⟩
  · by_cases hmp : mp = "latest"
    · subst hmp
      cases hq : latest_completed_train db pid with
      | none => intro _; simp [auto_annotate, hq]
      | some lj =>
        cases ha : lj.artifact_path with
        | none => intro _; simp [auto_annotate, hq, ha]
        | some a =>
          by_cases ha2 : a = ""
          · intro _; simp [auto_annotate, hq, ha, ha2]
          · intro hbad
            exfalso
            simp [auto_annotate, hq, ha, ha2, Except.isOk, Except.toBool] at hbad
    · intro hbad
      exfalso
      simp [auto_annotate, hmp, Except.isOk, Except.toBool] at hbad
  · intro hq
    simp [auto_annotate, hq]
  · intro payload htrain
    by_cases hres : resolve_model_arch db payload ∈ MODEL_ARCHITECTURES
    · intro hbad
      exfalso
      simp [create_job, htrain, hres, Except.isOk, Except.toBool] at hbad
    · intro _
      simp [create_job, htrain, hres]

/-- **C3** witness: the amended statement evaluated on an empty
database: `"latest"` is rejected by `auto_annotate` before creation,
and an unsupported train architecture is rejected by `create_job`
before creation. -/
theorem C3_witness :
    auto_annotate [] "p1" "latest" 5 "j1" 0 "t1" = ⟨[], .error 400, []⟩ ∧
    create_job [] { project_id := "p1", job_type := "train", model_arch := "bogus.pt" }
      "j1" 0 "t1" = ⟨[], .error 400, []⟩ := by
  refine ⟨(C3_validation_before_creation [] "p1" "latest" 5 "j1" 0 "t1").2.1 (by decide), ?_⟩
  exact (C3_validation_before_creation [] "p1" "x" 5 "j1" 0 "t1").2.2
    { project_id := "p1", job_type := "train", model_arch := "bogus.pt" } (by decide) (by decide)

/-- **C4** counterexample: the PENDING row committed by the first phase
of `create_job` carries the provisional channel `job_logs:<project_id>`
— not `job_logs:<job id>` — and the first phase of `auto_annotate`
commits an empty channel name; here project `p1`, job id `j1`. -/
theorem C4_counterexample :
    (create_job_phase1 { project_id := "p1", job_type := "train" } "yolo11n.pt" "j1" 0).status
        = JobStatus.PENDING ∧
    (create_job_phase1 { project_id := "p1", job_type := "train" } "yolo11n.pt" "j1" 0).logs_channel
        = "job_logs:p1" ∧
    "job_logs:p1" ≠ "job_logs:" ++ "j1" ∧
    (auto_annotate_phase1 "p1" 50 "j1" 0).logs_channel = "" := by
  decide

/-- **C4** (amended): the channel name is patched to the deterministic
`job_logs:<job id>` in the second phase, and every job returned by
`create_job`/`auto_annotate` carries it; but the row committed by the
first phase holds `job_logs:<project_id>` (`create_job`) or `""`
(`auto_annotate`), so a crash between the phases leaves a stored
channel name that does not equal `job_logs:<job id>` (the reader can
still reconstruct the true channel from the job id by the fixed
convention). -/
theorem C4_channel_patched_after_phase_one (db : List Job) (payload : JobCreate)
    (arch newId pid mp tid : String) (now : Nat) (lim : Nat) :
    (create_job_phase1 payload arch newId now).logs_channel
        = "job_logs:" ++ payload.project_id ∧
    (create_job_phase1 payload arch newId now).status = JobStatus.PENDING ∧
    (auto_annotate_phase1 pid lim newId now).logs_channel = "" ∧
    (∀ j : Job, (patch_logs_channel j).logs_channel = "job_logs:" ++ j.id) ∧
    (∀ jr : Job, (create_job db payload newId now tid).result = .ok jr →
      jr.logs_channel = "job_logs:" ++ newId) ∧
    (∀ jr : Job, (auto_annotate db pid mp lim newId now tid).result = .ok jr →
      jr.logs_channel = "job_logs:" ++ newId) := by
  refine ⟨rfl, rfl, rfl, fun j => rfl, ?_, ?_⟩
  · intro jr h
    unfold create_job at h
    by_cases hg : payload.job_type = "train" ∧ resolve_model_arch db payload ∉ MODEL_ARCHITECTURES
    · rw [if_pos hg] at h
      cases h
    · rw [if_neg hg] at h
      by_cases ht : payload.job_type = "train"
      · simp only [ht, if_true] at h
        cases h
        rfl
      · simp only [ht, if_false] at h
        by_cases hp : payload.job_type = "predict"
        · simp only [hp, if_true] at h
          cases hmp2 : payload.model_path with
          | none => rw [hmp2] at h; cases h
          | some mp2 =>
            rw [hmp2] at h
            cases h
            rfl
        · simp only [hp, if_false] at h
          cases h
          rfl
  · intro jr h
    unfold auto_annotate at h
    by_cases hmp : mp = "latest"
    · simp only [hmp, if_true] at h
      cases hq : latest_completed_train db pid with
      | none => simp only [hq] at h; cases h
      | some lj =>
        simp only [hq] at h
        cases ha : lj.artifact_path with
        | none => simp only [ha] at h; cases h
        | some a =>
          simp only [ha] at h
          by_cases ha2 : a = ""
          · simp only [ha2, if_true] at h; cases h
          · simp only [if_neg ha2] at h
            cases h
            rfl
    · simp only [hmp, if_false] at h
      cases h
      rfl

/-- **C4** witness: the amended statement evaluated on project `p1`,
job id `j1`: the final channel is `job_logs:j1` for both routes. -/
theorem C4_witness :
    (∀ jr : Job, (create_job []
        { project_id := "p1", job_type := "train" } "j1" 0 "t1").result = .ok jr →
      jr.logs_channel = "job_logs:" ++ "j1") ∧
    (patch_logs_channel (auto_annotate_phase1 "p1" 50 "j1" 0)).logs_channel
        = "job_logs:" ++ "j1" :=
  ⟨(C4_channel_patched_after_phase_one []
      { project_id := "p1", job_type := "train" } "yolo11n.pt" "j1" "p1" "x" "t1" 0 50).2.2.2.2.1,
   (C4_channel_patched_after_phase_one []
      { project_id := "p1", job_type := "train" } "yolo11n.pt" "j1" "p1" "x" "t1" 0 50).2.2.2.1
      (auto_annotate_phase1 "p1" 50 "j1" 0)⟩

/-- **C5** counterexample: in the predict executor's failure handler a
log-flush failure is re-raised, not swallowed (and a publish failure
even skips the FAILED status write), contradicting the claim for
predict executions that end in FAILED. -/
theorem C5_counterexample :
    (predict_fail_path "job_logs:j1" "ts0" "boom" sampleRunning sampleChan true true false).raised
        = true ∧
    (predict_fail_path "job_logs:j1" "ts0" "boom" sampleRunning sampleChan false true true).raised
        = true ∧
    (predict_fail_path "job_logs:j1" "ts0" "boom" sampleRunning sampleChan false true true).job.status
        ≠ JobStatus.FAILED := by
  decide

theorem train_fail_path_eq (ch ts tb : String) (j : Job) (c : Chan) :
    train_fail_path ch ts tb j c true true true =
      { raised := false
        job := { update_job j JobStatus.FAILED none none with
                 logs := (applyCmds j.id c (publish_log ts ch ("ERROR: " ++ tb) none)).buffer }
        chan := { applyCmds j.id c (publish_log ts ch ("ERROR: " ++ tb) none) with buffer := [] } } := by
  unfold train_fail_path
  simp only [if_true, flush_logs_to_db]

theorem predict_fail_path_eq (ch ts tb : String) (j : Job) (c : Chan) :
    predict_fail_path ch ts tb j c true true true
      = train_fail_path ch ts tb j c true true true := by
  unfold predict_fail_path train_fail_path
  simp only [Bool.true_eq_false, if_false, if_true, flush_logs_to_db,
    update_job, predict_update_job]

/-- **C5** (amended): in the train executor, every failure ends with
the error detail captured as a log line before the FAILED status write,
the handler never re-raises whatever combination of steps fails, the
log flush is attempted even after earlier step failures, and when the
steps succeed the FAILED job's persisted logs are non-empty and contain
the `ERROR: <traceback>` line; the predict executor agrees on the
all-steps-succeed path, but its handler re-raises step failures (see
the counterexample). -/
theorem C5_train_failure_handler (ch ts tb : String) (j : Job) (c : Chan)
    (pOk uOk : Bool)
    (h1 : pyStartsWith ch "job_logs:" = true)
    (h2 : pyDrop ch ("job_logs:".length) = j.id)
    (h3 : j.id ≠ "") (h4 : ch = "job_logs:" ++ j.id) :
    (∀ fOk, (train_fail_path ch ts tb j c pOk uOk fOk).raised = false) ∧
    (train_fail_path ch ts tb j c pOk uOk true).chan.buffer = [] ∧
    ((train_fail_path ch ts tb j c true true true).job.status = JobStatus.FAILED ∧
     (train_fail_path ch ts tb j c true true true).job.logs
        = c.buffer ++ [{ ts := ts, line := "ERROR: " ++ tb }] ∧
     (train_fail_path ch ts tb j c true true true).job.logs ≠ []) ∧
    predict_fail_path ch ts tb j c true true true
        = train_fail_path ch ts tb j c true true true := by
  have hc1 : applyCmds j.id c (publish_log ts ch ("ERROR: " ++ tb) none) =
      { c with pubsub := c.pubsub ++ [Msg.line ("ERROR: " ++ tb)],
               buffer := c.buffer ++ [{ ts := ts, line := "ERROR: " ++ tb }] } :=
    applyCmds_publish_log_self j.id ch ts ("ERROR: " ++ tb) c h1 h2 h3 h4
  refine ⟨fun fOk => by cases fOk <;> rfl, rfl, ⟨?_, ?_, ?_⟩,
    predict_fail_path_eq ch ts tb j c⟩
  · rw [train_fail_path_eq]
    rfl
  · rw [train_fail_path_eq, hc1]
  · rw [train_fail_path_eq, hc1]
    simp

/-- **C5** witness: the amended statement evaluated on a running job
`j1`, empty buffer: the handler leaves a FAILED job whose persisted
logs are exactly the error-trace entry. -/
theorem C5_witness :
    (train_fail_path "job_logs:j1" "ts0" "boom" sampleRunning sampleChan true true true).job.status
        = JobStatus.FAILED ∧
    (train_fail_path "job_logs:j1" "ts0" "boom" sampleRunning sampleChan true true true).job.logs
        = [{ ts := "ts0", line := "ERROR: boom" }] := by
  have h := C5_train_failure_handler "job_logs:j1" "ts0" "boom" sampleRunning sampleChan
      true true (by decide) (by decide) (by decide) (by decide)
  exact ⟨h.2.2.1.1, h.2.2.1.2.1⟩

theorem round1_mono {x y : ℚ} (h : x ≤ y) : round1 x ≤ round1 y := by
  unfold round1
  have h2 : round (10 * x) ≤ round (10 * y) := by
    rw [round_eq, round_eq]
    exact Int.floor_mono (by linarith)
  have h3 : ((round (10 * x) : ℤ) : ℚ) ≤ ((round (10 * y) : ℤ) : ℚ) := by
    exact_mod_cast h2
  linarith

theorem round1_zero : round1 (0 : ℚ) = 0 := by
  simp [round1]

theorem round1_hundred : round1 (100 : ℚ) = 100 := by
  norm_num [round1]

theorem round1_bounds {x : ℚ} (h0 : 0 ≤ x) (h100 : x ≤ 100) :
    0 ≤ round1 x ∧ round1 x ≤ 100 := by
  constructor
  · have h := round1_mono h0; rwa [round1_zero] at h
  · have h := round1_mono h100; rwa [round1_hundred] at h

/-- **C6**: within one execution, the published `pct` of the batch-end
(minor) events is `round(((epoch-1) + batch/total_batches) /
total_epochs * 100, 1)` — the claimed formula — every emitted percent
lies in `[0, 100]`, the epoch-end (major) event of an epoch coincides
with the minor percent at the epoch's last batch, and the percent is
non-decreasing along the emission order (lexicographic in
(epoch, batch), with the epoch-end event closing each epoch). -/
theorem C6_progress_percent (tE1 tE2 total b1 b2 nb : Nat)
    (htot : 1 ≤ total) (hnb : 1 ≤ nb)
    (hep1 : tE1 + 1 ≤ total)
    (hb1 : b1 ≤ nb) (hb2 : b2 ≤ nb) :
    batch_end_pct tE1 total b1 nb
        = round1 (((tE1 : ℚ) + (b1 : ℚ) / (nb : ℚ)) / (total : ℚ) * 100) ∧
    (0 ≤ batch_end_pct tE1 total b1 nb ∧ batch_end_pct tE1 total b1 nb ≤ 100) ∧
    (0 ≤ epoch_end_pct tE1 total ∧ epoch_end_pct tE1 total ≤ 100) ∧
    epoch_end_pct tE1 total = batch_end_pct tE1 total nb nb ∧
    ((tE1 < tE2 ∨ (tE1 = tE2 ∧ b1 ≤ b2)) →
      batch_end_pct tE1 total b1 nb ≤ batch_end_pct tE2 total b2 nb) ∧
    epoch_end_pct tE1 total ≤ batch_end_pct (tE1 + 1) total b2 nb := by
  have hmn : max nb 1 = nb := Nat.max_eq_left hnb
  have hmt : max total 1 = total := Nat.max_eq_left htot
  have hnbQ : (0:ℚ) < (nb : ℚ) := by
    exact_mod_cast Nat.lt_of_lt_of_le Nat.zero_lt_one hnb
  have htotQ : (0:ℚ) < (total : ℚ) := by
    exact_mod_cast Nat.lt_of_lt_of_le Nat.zero_lt_one htot
  have hfrac : ∀ b : Nat, b ≤ nb → (b:ℚ)/(nb:ℚ) ≤ 1 := by
    intro b hb
    exact (div_le_one hnbQ).mpr (by exact_mod_cast hb)
  have hfrac0 : ∀ b : Nat, (0:ℚ) ≤ (b:ℚ)/(nb:ℚ) := by
    intro b; positivity
  have hcore : ∀ tE b : Nat, tE + 1 ≤ total → b ≤ nb →
      0 ≤ ((tE : ℚ) + (b:ℚ)/(nb:ℚ))/(total:ℚ)*100 ∧
      ((tE : ℚ) + (b:ℚ)/(nb:ℚ))/(total:ℚ)*100 ≤ 100 := by
    intro tE b htE hb
    constructor
    · positivity
    · have hsum : (tE:ℚ) + (b:ℚ)/(nb:ℚ) ≤ (total:ℚ) := by
        have hc : ((tE:ℚ) + 1) ≤ (total:ℚ) := by exact_mod_cast htE
        have := hfrac b hb
        linarith
      have hdiv : ((tE:ℚ) + (b:ℚ)/(nb:ℚ))/(total:ℚ) ≤ 1 := (div_le_one htotQ).mpr hsum
      linarith
  have hbpct : ∀ tE b : Nat, batch_end_pct tE total b nb
      = round1 (((tE : ℚ) + (b : ℚ) / (nb : ℚ)) / (total : ℚ) * 100) := by
    intro tE b
    simp only [batch_end_pct, hmn, hmt]
  refine ⟨hbpct tE1 b1, ?_, ?_, ?_, ?_, ?_⟩
  · rw [hbpct tE1 b1]
    exact round1_bounds (hcore tE1 b1 hep1 hb1).1 (hcore tE1 b1 hep1 hb1).2
  · unfold epoch_end_pct
    have harg : (0:ℚ) ≤ 100 * ((tE1:ℚ) + 1) / (total:ℚ) := by positivity
    have harg2 : 100 * ((tE1:ℚ) + 1) / (total:ℚ) ≤ 100 := by
      have hc : ((tE1:ℚ) + 1) ≤ (total:ℚ) := by exact_mod_cast hep1
      have hdiv : ((tE1:ℚ) + 1)/(total:ℚ) ≤ 1 := (div_le_one htotQ).mpr hc
      calc 100 * ((tE1:ℚ) + 1) / (total:ℚ) = 100 * (((tE1:ℚ) + 1) / (total:ℚ)) := by ring
        _ ≤ 100 * 1 := by linarith
        _ = 100 := by norm_num
    exact round1_bounds harg harg2
  · rw [hbpct tE1 nb]
    unfold epoch_end_pct
    have harg : ((tE1:ℚ) + (nb:ℚ)/(nb:ℚ))/(total:ℚ)*100 = 100 * ((tE1:ℚ) + 1) / (total:ℚ) := by
      rw [div_self (ne_of_gt hnbQ)]
      ring
    rw [harg]
  · intro hlex
    rw [hbpct tE1 b1, hbpct tE2 b2]
    apply round1_mono
    rcases hlex with hlt | ⟨heq, hle⟩
    · have hstep : (tE1:ℚ) + 1 ≤ (tE2:ℚ) := by exact_mod_cast hlt
      have h1 := hfrac b1 hb1
      have h2 := hfrac0 b2
      have hsum : (tE1:ℚ) + (b1:ℚ)/(nb:ℚ) ≤ (tE2:ℚ) + (b2:ℚ)/(nb:ℚ) := by linarith
      gcongr
    · subst heq
      have hc : (b1:ℚ) ≤ (b2:ℚ) := by exact_mod_cast hle
      gcongr
  · rw [hbpct (tE1 + 1) b2]
    unfold epoch_end_pct
    apply round1_mono
    push_cast
    have h2 := hfrac0 b2
    have hTinv : (0:ℚ) ≤ (total:ℚ)⁻¹ := by positivity
    have hmul : 100 * ((tE1:ℚ) + 1) ≤ (((tE1:ℚ) + 1) + (b2:ℚ)/(nb:ℚ)) * 100 := by linarith
    calc 100 * ((tE1:ℚ) + 1) / (total:ℚ)
        = 100 * ((tE1:ℚ) + 1) * (total:ℚ)⁻¹ := by rw [div_eq_mul_inv]
      _ ≤ ((((tE1:ℚ) + 1) + (b2:ℚ)/(nb:ℚ)) * 100) * (total:ℚ)⁻¹ :=
          mul_le_mul_of_nonneg_right hmul hTinv
      _ = (((tE1:ℚ) + 1) + (b2:ℚ)/(nb:ℚ)) / (total:ℚ) * 100 := by
          rw [div_eq_mul_inv]; ring

/-- **C6** witness: the statement evaluated at 3 epochs, 4 batches per
epoch: the minor event (epoch 1, batch 2), the epoch-1 major event and
the minor event (epoch 2, batch 1) are emitted in non-decreasing order. -/
theorem C6_witness :
    batch_end_pct 0 3 2 4
        = round1 ((((0:Nat):ℚ) + ((2:Nat):ℚ)/((4:Nat):ℚ))/((3:Nat):ℚ)*100) ∧
    epoch_end_pct 0 3 = batch_end_pct 0 3 4 4 ∧
    batch_end_pct 0 3 2 4 ≤ batch_end_pct 1 3 1 4 ∧
    epoch_end_pct 0 3 ≤ batch_end_pct (0 + 1) 3 1 4 := by
  have h := C6_progress_percent 0 1 3 2 1 4 (by decide) (by decide) (by decide)
    (by decide) (by decide)
  exact ⟨h.1, h.2.2.2.1, h.2.2.2.2.1 (Or.inl (by decide)), h.2.2.2.2.2⟩

/-- **C7**: `get_job_progress` synthesizes the terminal snapshot
(percent 100, phase "completed", epoch counters from the stored
hyperparams) on a COMPLETED job; returns phase-only snapshots named
after the status for FAILED/CANCELLED; and for PENDING/RUNNING returns
the cached progress event, falling back to phase "pending"
(resp. "preparing") when the cache is empty. -/
theorem C7_get_progress_spec (j : Job) (cache : Option Progress) :
    (j.status = JobStatus.COMPLETED →
      get_job_progress j cache =
        { epoch := hpGetD j.hyperparams "epochs" 0
          total_epochs := hpGetD j.hyperparams "epochs" 0
          pct := 100
          phase := "completed" }) ∧
    (j.status = JobStatus.FAILED → get_job_progress j cache = { phase := "failed" }) ∧
    (j.status = JobStatus.CANCELLED → get_job_progress j cache = { phase := "cancelled" }) ∧
    ((j.status = JobStatus.PENDING ∨ j.status = JobStatus.RUNNING) →
      ∀ p, cache = some p → get_job_progress j cache = p) ∧
    (j.status = JobStatus.PENDING → cache = none →
      get_job_progress j cache = { phase := "pending" }) ∧
    (j.status = JobStatus.RUNNING → cache = none →
      get_job_progress j cache = { phase := "preparing" }) := by
  refine ⟨?_, ?_, ?_, ?_, ?_, ?_⟩
  · intro h; simp [get_job_progress, h]
  · intro h; simp [get_job_progress, h, JobStatus.lower]
  · intro h; simp [get_job_progress, h, JobStatus.lower]
  · intro h p hp
    rcases h with h | h <;> simp [get_job_progress, h, hp]
  · intro h hc; simp [get_job_progress, h, hc]
  · intro h hc; simp [get_job_progress, h, hc]

/-- **C7** witness: evaluated on a COMPLETED job with 20 stored epochs,
a FAILED job, and a RUNNING job with and without a cached event. -/
theorem C7_witness :
    get_job_progress { sampleRunning with
        status := JobStatus.COMPLETED
        hyperparams := [("epochs", 20)] } none
      = { epoch := 20, total_epochs := 20, pct := 100, phase := "completed" } ∧
    get_job_progress { sampleRunning with status := JobStatus.FAILED } none
      = { phase := "failed" } ∧
    get_job_progress sampleRunning (some { epoch := 2, pct := 37, phase := "training" })
      = { epoch := 2, pct := 37, phase := "training" } ∧
    get_job_progress sampleRunning none = { phase := "preparing" } := by
  refine ⟨?_, ?_, ?_, ?_⟩
  · exact (C7_get_progress_spec _ none).1 (by decide)
  · exact (C7_get_progress_spec _ none).2.1 (by decide)
  · exact (C7_get_progress_spec sampleRunning _).2.2.2.1 (Or.inr (by decide)) _ rfl
  · exact (C7_get_progress_spec sampleRunning none).2.2.2.2.2 (by decide) rfl

/-- **C8**: the blocking `sync_publish_log` and the concurrency-safe
`publish_log` issue identical single-round-trip pipelines for every
channel, message, timestamp and optional progress payload — hence the
same pub/sub publishes, the same timestamped 7-day-expiry append to the
job's log buffer, and the same 24-hour-expiry overwrite of the one-slot
progress cache — and consequently the same effect on any job's
telemetry state. -/
theorem C8_publish_variants_agree (ts channel message : String)
    (progress : Option Progress) (jid : String) (c : Chan) :
    sync_publish_log ts channel message progress
        = publish_log ts channel message progress ∧
    applyCmds jid c (sync_publish_log ts channel message progress)
        = applyCmds jid c (publish_log ts channel message progress) := by
  have h : sync_publish_log ts channel message progress
      = publish_log ts channel message progress := rfl
  exact ⟨h, by rw [h]⟩

theorem applyCancel_chan_frame (j : Job) (c : Chan) :
    (applyCancel j c).2.buffer = c.buffer ∧
    (applyCancel j c).2.cache = c.cache ∧
    (applyCancel j c).1.logs = j.logs := by
  unfold applyCancel cancel_job
  by_cases hcond : j.status ≠ JobStatus.PENDING ∧ j.status ≠ JobStatus.RUNNING
  · rw [if_pos hcond]
    exact ⟨rfl, rfl, rfl⟩
  · rw [if_neg hcond]
    cases ht : j.celery_task_id with
    | none =>
      by_cases hch : j.logs_channel = "job_logs:" ++ j.id <;>
        simp [applyEffect, hch]
    | some t =>
      by_cases hch : j.logs_channel = "job_logs:" ++ j.id <;>
        simp [applyEffect, hch]

/-- **C9**: the cancellation line of `cancel_job` is a bare pub/sub
publish: it leaves the job's ephemeral log buffer, its progress cache
and the durable `logs` column untouched (so `get_job_logs` returns the
same entries before and after, and a subsequent log flush cannot
introduce the line into the durable logs); on the success path exactly
one message is appended to the live stream. -/
theorem C9_cancel_line_not_persisted (j : Job) (c : Chan) :
    ((applyCancel j c).2.buffer = c.buffer ∧
     (applyCancel j c).2.cache = c.cache ∧
     (applyCancel j c).1.logs = j.logs) ∧
    get_job_logs (applyCancel j c).1 (applyCancel j c).2 = get_job_logs j c ∧
    ((j.status = JobStatus.PENDING ∨ j.status = JobStatus.RUNNING) →
      j.logs_channel = "job_logs:" ++ j.id →
      (applyCancel j c).2.pubsub = c.pubsub ++ [Msg.line "Job cancelled by user"]) ∧
    (¬ "Job cancelled by user" ∈ c.buffer.map LogEntry.line →
     ¬ "Job cancelled by user" ∈ j.logs.map LogEntry.line →
      ¬ "Job cancelled by user" ∈
        ((flush_logs_to_db (applyCancel j c).1 (applyCancel j c).2).1.logs.map LogEntry.line)) := by
  obtain ⟨hb, hc2, hl⟩ := applyCancel_chan_frame j c
  refine ⟨⟨hb, hc2, hl⟩, ?_, ?_, ?_⟩
  · unfold get_job_logs
    rw [hb, hl]
  · intro hst hch
    have hcond : ¬(j.status ≠ JobStatus.PENDING ∧ j.status ≠ JobStatus.RUNNING) := by
      rcases hst with h | h <;> simp [h]
    unfold applyCancel cancel_job
    rw [if_neg hcond]
    cases ht : j.celery_task_id with
    | none => simp [applyEffect, hch]
    | some t => simp [applyEffect, hch]
  · intro hbuf _
    unfold flush_logs_to_db
    rw [hb]
    exact hbuf

/-- **C9** witness: cancelling the running job `j1` over an empty
telemetry state publishes exactly the cancellation line on the live
stream, leaves `get_job_logs` unchanged, and the line is absent from
the durable logs after a flush. -/
theorem C9_witness :
    (applyCancel sampleRunning sampleChan).2.pubsub = [Msg.line "Job cancelled by user"] ∧
    get_job_logs (applyCancel sampleRunning sampleChan).1 (applyCancel sampleRunning sampleChan).2
        = get_job_logs sampleRunning sampleChan ∧
    ¬ "Job cancelled by user" ∈
        ((flush_logs_to_db (applyCancel sampleRunning sampleChan).1
            (applyCancel sampleRunning sampleChan).2).1.logs.map LogEntry.line) := by
  have h := C9_cancel_line_not_persisted sampleRunning sampleChan
  exact ⟨h.2.2.1 (Or.inr (by decide)) (by decide), h.2.1,
    h.2.2.2 (by decide) (by decide)⟩

theorem pickLatest_foldl_mem (l : List Job) :
    ∀ (acc : Option Job) (j : Job),
      l.foldl (fun acc j =>
        match acc with
        | none => some j
        | some k => if k.created_at < j.created_at then some j else some k) acc = some j →
      j ∈ l ∨ acc = some j := by
  induction l with
  | nil => intro acc j h; exact Or.inr h
  | cons hd tl ih =>
    intro acc j h
    rcases ih _ j h with hin | heq
    · exact Or.inl (List.mem_cons_of_mem _ hin)
    · cases acc with
      | none =>
        injection heq with heq2
        subst heq2
        exact Or.inl (List.mem_cons_self _ _)
      | some k =>
        replace heq : (if k.created_at < hd.created_at then some hd else some k) = some j := heq
        by_cases hlt : k.created_at < hd.created_at
        · rw [if_pos hlt] at heq
          injection heq with heq2
          subst heq2
          exact Or.inl (List.mem_cons_self _ _)
        · rw [if_neg hlt] at heq
          exact Or.inr heq

theorem pickLatest_mem {l : List Job} {j : Job} (h : pickLatest l = some j) : j ∈ l := by
  rcases pickLatest_foldl_mem l none j h with hin | heq
  · exact hin
  · cases heq

theorem latest_completed_train_sound {db : List Job} {pid : String} {lj : Job}
    (h : latest_completed_train db pid = some lj) :
    lj ∈ db ∧ lj.project_id = pid ∧ lj.job_type = "train" ∧
    lj.status = JobStatus.COMPLETED ∧ lj.artifact_path ≠ none := by
  unfold latest_completed_train at h
  have hmem := pickLatest_mem h
  rw [List.mem_filter] at hmem
  obtain ⟨hin, hprop⟩ := hmem
  simp only [decide_eq_true_eq] at hprop
  exact ⟨hin, hprop.1, hprop.2.1, hprop.2.2.1, hprop.2.2.2⟩

/-- **C10**: a train execution that returns normally without producing
a best-weights file is finalized COMPLETED with `artifact_path` left
NULL (the UPDATE omits the column), so COMPLETED alone does not imply
an artifact — and `delete_model` even clears the artifact of a
COMPLETED job without touching its status; every job the `"latest"`
resolution returns is a COMPLETED train job of the project with a
non-null artifact, and the resolution fails with HTTP 400 when no such
job exists. -/
theorem C10_completed_does_not_imply_artifact (j : Job) (uploadTs : Nat)
    (m : List (String × ℚ)) (db : List Job) (pid : String) :
    (j.artifact_path = none →
      (train_finalize j false uploadTs m).status = JobStatus.COMPLETED ∧
      (train_finalize j false uploadTs m).artifact_path = none) ∧
    (∀ lj : Job, latest_completed_train db pid = some lj →
      lj ∈ db ∧ lj.project_id = pid ∧ lj.job_type = "train" ∧
      lj.status = JobStatus.COMPLETED ∧ lj.artifact_path ≠ none) ∧
    (latest_completed_train db pid = none → ∀ lim newId now tid,
      (auto_annotate db pid "latest" lim newId now tid).result = .error 400) ∧
    (∀ j2, delete_model j = .ok j2 → j2.status = j.status ∧ j2.artifact_path = none) := by
  refine ⟨?_, ?_, ?_, ?_⟩
  · intro h
    exact ⟨rfl, h⟩
  · intro lj hq
    exact latest_completed_train_sound hq
  · intro hq lim newId now tid
    simp [auto_annotate, hq]
  · intro j2 h
    unfold delete_model at h
    by_cases ha : j.artifact_path = none
    · rw [if_pos ha] at h
      cases h
    · rw [if_neg ha] at h
      injection h with h2
      subst h2
      exact ⟨rfl, rfl⟩

/-- **C10** witness: evaluated on a running job with no artifact (the
no-best-weights finalization), a one-job database with a completed
artifact-bearing train job, the empty database, and `delete_model` on
the completed job. -/
theorem C10_witness :
    (train_finalize sampleRunning false 7 []).status = JobStatus.COMPLETED ∧
    (train_finalize sampleRunning false 7 []).artifact_path = none ∧
    (sampleCompleted ∈ [sampleCompleted] ∧ sampleCompleted.project_id = "p1" ∧
      sampleCompleted.job_type = "train" ∧
      sampleCompleted.status = JobStatus.COMPLETED ∧
      sampleCompleted.artifact_path ≠ none) ∧
    (auto_annotate [] "p1" "latest" 5 "j9" 0 "t9").result = .error 400 ∧
    (({ sampleCompleted with artifact_path := none } : Job).status
        = sampleCompleted.status ∧
     ({ sampleCompleted with artifact_path := none } : Job).artifact_path = none) := by
  have h1 := C10_completed_does_not_imply_artifact sampleRunning 7 [] [sampleCompleted] "p1"
  have h2 := C10_completed_does_not_imply_artifact sampleCompleted 7 [] [] "p1"
  exact ⟨(h1.1 (by decide)).1, (h1.1 (by decide)).2,
    h1.2.1 sampleCompleted (by decide),
    h2.2.2.1 (by decide) 5 "j9" 0 "t9",
    h2.2.2.2 { sampleCompleted with artifact_path := none } (by decide)⟩

end Spektra
